import Mathlib

/-!
# SitePulse — Audit & Trend Analysis Engine: verification development

Shallow embedding of the SitePulse server core
(`server/services/audit.ts`, `server/services/historical-insights.service.ts`,
`server/storage.ts`) together with theorems checking the natural-language
specification against the code.

Modelling conventions:
* JS numbers are modelled as `ℚ` (all the arithmetic the claims touch is exact
  on rationals); integer-valued scores are modelled as `ℤ` where the source
  only ever produces integers.
* JS string primitives (`split`, `startsWith`, `includes`, `trim`,
  `toLowerCase`) are modelled by structurally recursive functions on
  `String.data`, so that every definition evaluates by `decide`/`rfl`.
* `async` functions are modelled as pure functions; the DNS lookup, the
  link-probe HTTP requests and the storage are passed in as explicit
  oracles/state, and the network effects of `checkLinks` are made visible as
  an explicit trace of probed URLs.
-/

namespace SitePulse

/-! ## JS primitive models -/

/-- Model of JS `Math.round`: round half toward positive infinity. -/
def jsRound (q : ℚ) : ℤ := ⌊q + 1/2⌋

/-- Split a character list at every occurrence of the separator character,
    as JS `String.prototype.split` with a one-character separator:
    `"a::b".split(":") = ["a","","b"]`, `"".split(":") = [""]`. -/
def jsSplitCharList (sep : Char) : List Char → List (List Char)
  | [] => [[]]
  | c :: rest =>
    let r := jsSplitCharList sep rest
    if c = sep then [] :: r
    else
      match r with
      | h :: t => (c :: h) :: t
      | [] => [[c]]

/-- JS `s.split(sep)` for a one-character separator, on `String`s. -/
def jsSplitChar (s : String) (sep : Char) : List String :=
  (jsSplitCharList sep s.data).map List.asString

/-- JS `s.includes(c)` for a single character. -/
def jsIncludesChar (s : String) (c : Char) : Bool := s.data.contains c

/-- JS `s.startsWith(p)`. -/
def jsStartsWith (s p : String) : Bool := p.data.isPrefixOf s.data

/-- JS `s.includes(p)` (substring containment). -/
def jsIncludes (s p : String) : Bool :=
  let rec go : List Char → Bool
    | [] => p.data.isPrefixOf ([] : List Char)
    | c :: rest => p.data.isPrefixOf (c :: rest) || go rest
  go s.data

/-- JS `s.trim()`: strip whitespace from both ends. -/
def jsTrim (s : String) : String :=
  ((s.data.dropWhile Char.isWhitespace).reverse.dropWhile Char.isWhitespace).reverse.asString

/-- JS `s.toLowerCase()` (ASCII fragment, which is all the source relies on). -/
def jsToLower (s : String) : String := (s.data.map Char.toLower).asString

/-- Model of JS `Number(s)` restricted to the strings that arise from
    splitting an IP address: the empty string parses to `0` (as in JS),
    a nonempty string of decimal digits parses to its value, and anything
    else is `NaN` (`none`).  (Exotic JS numeric syntax such as hex literals
    cannot occur in a dotted-quad and is mapped to `none`.) -/
def jsNumber (s : String) : Option Nat :=
  if s.data = [] then some 0
  else if s.data.all Char.isDigit then some (s.data.foldl (fun a c => a * 10 + (c.toNat - '0'.toNat)) 0)
  else none

/-! ## URL Safety Gate — `AuditService.isPrivateIP` (audit.ts lines 21-76) -/

/-- The IPv4 branch of `isPrivateIP`, applied to `ip.split('.').map(Number)`
    (audit.ts lines 50-75).  A comparison against a JS `NaN` (`none`) is
    `false`, as in JS. -/
def isPrivateIPv4Parts (parts : List (Option Nat)) : Bool :=
  match parts with
  | [p0, p1, _, _] =>
    if p0 = some 127 then true
    else if p0 = some 10 then true
    else if p0 = some 172 && (match p1 with | some v => decide (16 ≤ v) && decide (v ≤ 31) | none => false) then true
    else if p0 = some 192 && p1 = some 168 then true
    else if p0 = some 169 && p1 = some 254 then true
    else if p0 = some 0 then true
    else if (match p0 with | some v => decide (224 ≤ v) && decide (v ≤ 239) | none => false) then true
    else false
  | _ => false

/-- Shallow embedding of `AuditService.isPrivateIP` (audit.ts lines 21-76). -/
def isPrivateIP (ip : String) : Bool :=
  if jsIncludesChar ip ':' then
    -- IPv6 branch
    let normalized := jsTrim (jsToLower ip)
    if normalized = "::1" || normalized = "::" then true
    else
      let parts := (jsSplitChar normalized ':').filter (fun p => 0 < p.length)
      match parts with
      | [] => true
      | firstHextet :: _ =>
        if firstHextet = "fe80" || jsStartsWith normalized "fe80:" then true
        else if jsStartsWith firstHextet "fc" || jsStartsWith firstHextet "fd" then true
        else if jsStartsWith firstHextet "ff" then true
        else false
  else
    isPrivateIPv4Parts ((jsSplitChar ip '.').map jsNumber)

/-! ### The documented range partition (spec §4.1 / §8), for comparison -/

/-- Modelled from the spec's words: the documented IPv4 ranges — loopback
    `127/8`, private `10/8`, `172.16/12`, `192.168/16`, link-local
    `169.254/16`, this-network `0/8`, multicast `224/4`. -/
def ipv4InDocumentedRanges (a b : Nat) : Bool :=
  (a == 127) || (a == 10) || (a == 172 && decide (16 ≤ b) && decide (b ≤ 31)) ||
  (a == 192 && b == 168) || (a == 169 && b == 254) || (a == 0) ||
  (decide (224 ≤ a) && decide (a ≤ 239))

/-- Modelled from the spec's words: the documented IPv6 ranges on the eight
    16-bit hextets — loopback `::1`, link-local `fe80::/10`, unique-local
    `fc00::/7`, multicast `ff00::/8`. -/
def ipv6InDocumentedRanges (h : List Nat) : Bool :=
  (h == [0, 0, 0, 0, 0, 0, 0, 1]) ||
  (match h with
   | h0 :: _ =>
     (decide (0xfe80 ≤ h0) && decide (h0 ≤ 0xfebf)) ||
     (decide (0xfc00 ≤ h0) && decide (h0 ≤ 0xfdff)) ||
     decide (0xff00 ≤ h0)
   | [] => false)

/-- Parse one decimal octet of a dotted-quad (0-255, digits only). -/
def parseOctet (s : String) : Option Nat :=
  if s.data = [] then none
  else match jsNumber s with
       | some v => if v ≤ 255 then some v else none
       | none => none

/-- Parse the dot-separated parts of a dotted-quad. -/
def parseIPv4Parts : List String → Option (Nat × Nat × Nat × Nat)
  | [w, x, y, z] =>
    match parseOctet w, parseOctet x, parseOctet y, parseOctet z with
    | some a, some b, some c, some d => some (a, b, c, d)
    | _, _, _, _ => none
  | _ => none

/-- Parse a textual IPv4 address (dotted-quad).  A colon never occurs in an
    IPv4 address, so any string containing one is rejected. -/
def parseIPv4 (s : String) : Option (Nat × Nat × Nat × Nat) :=
  if jsIncludesChar s ':' then none
  else parseIPv4Parts (jsSplitChar s '.')

/-- Value of one lowercase hex digit. -/
def hexDigitVal (c : Char) : Option Nat :=
  if c.isDigit then some (c.toNat - '0'.toNat)
  else if 'a' ≤ c ∧ c ≤ 'f' then some (c.toNat - 'a'.toNat + 10)
  else none

/-- Parse one hextet (1-4 lowercase hex digits). -/
def parseHextet (s : String) : Option Nat :=
  if s.data = [] ∨ 4 < s.data.length then none
  else
    s.data.foldl
      (fun acc c =>
        match acc, hexDigitVal c with
        | some a, some v => some (a * 16 + v)
        | _, _ => none)
      (some 0)

/-- Parse a list of hextet strings. -/
def parseHextetList : List String → Option (List Nat)
  | [] => some []
  | s :: rest =>
    match parseHextet s, parseHextetList rest with
    | some v, some vs => some (v :: vs)
    | _, _ => none

/-- Split a character list at the first occurrence of a double colon,
    returning the two sides, or `none` if no `::` occurs. -/
def splitDoubleColon : List Char → Option (List Char × List Char)
  | [] => none
  | [_] => none
  | a :: b :: rest =>
    if a = ':' ∧ b = ':' then some ([], rest)
    else
      match splitDoubleColon (b :: rest) with
      | some (l, r) => some (a :: l, r)
      | none => none

/-- Parse a textual IPv6 address into its eight hextet values.  Handles the
    `::` zero-run compression; nested `::` is rejected. -/
def parseIPv6 (s : String) : Option (List Nat) :=
  match splitDoubleColon s.data with
  | none =>
    let ps := jsSplitChar s ':'
    if ps.length = 8 then parseHextetList ps else none
  | some (l, r) =>
    if splitDoubleColon r ≠ none then none
    else
      let lps := if l = [] then [] else (jsSplitCharList ':' l).map List.asString
      let rps := if r = [] then [] else (jsSplitCharList ':' r).map List.asString
      match parseHextetList lps, parseHextetList rps with
      | some lv, some rv =>
        if lv.length + rv.length ≤ 7 then
          some (lv ++ List.replicate (8 - lv.length - rv.length) 0 ++ rv)
        else none
      | _, _ => none

/-- A resolved IP address, as `dns.lookup` reports it. -/
inductive IPAddr where
  | v4 (a b c d : Nat)
  | v6 (hextets : List Nat)
deriving DecidableEq

/-- Parse a textual address into its structural form. -/
def parseIP (s : String) : Option IPAddr :=
  match parseIPv4 s with
  | some (a, b, c, d) => some (.v4 a b c d)
  | none =>
    match parseIPv6 s with
    | some h => some (.v6 h)
    | none => none

/-- Modelled from the spec's words: membership in the documented
    reject-partition of §4.1. -/
def inDocumentedRanges : IPAddr → Bool
  | .v4 a b _ _ => ipv4InDocumentedRanges a b
  | .v6 h => ipv6InDocumentedRanges h

/-! ## URL Safety Gate — `AuditService.validateUrlSafety` (audit.ts lines 78-117) -/

/-- Outcome of the `dns.lookup` call inside `validateUrlSafety`. -/
inductive DnsOutcome where
  | resolved (address : String)
  | failed (message : String)
deriving DecidableEq

/-- Result of the Safety Gate: success, or a thrown error with its message. -/
inductive GateResult where
  | ok
  | error (message : String)
deriving DecidableEq

/-- `['http:', 'https:'].includes(urlObj.protocol)` (audit.ts line 82). -/
def schemeAllowed (protocol : String) : Bool :=
  protocol = "http:" || protocol = "https:"

/-- `['localhost', '127.0.0.1', '::1'].includes(hostname)` (audit.ts line 88). -/
def literalHostDenylist (hostname : String) : Bool :=
  hostname = "localhost" || hostname = "127.0.0.1" || hostname = "::1"

/-- The anchored literal private-hostname regex of audit.ts line 93:
    `^(10\.|172\.(1[6-9]|2[0-9]|3[0-1])\.|192\.168\.|127\.|169\.254\.)`,
    with the sixteen `172.16.`-`172.31.` alternatives spelled out. -/
def privateHostnameTest (h : String) : Bool :=
  jsStartsWith h "10." ||
  jsStartsWith h "172.16." || jsStartsWith h "172.17." || jsStartsWith h "172.18." ||
  jsStartsWith h "172.19." || jsStartsWith h "172.20." || jsStartsWith h "172.21." ||
  jsStartsWith h "172.22." || jsStartsWith h "172.23." || jsStartsWith h "172.24." ||
  jsStartsWith h "172.25." || jsStartsWith h "172.26." || jsStartsWith h "172.27." ||
  jsStartsWith h "172.28." || jsStartsWith h "172.29." || jsStartsWith h "172.30." ||
  jsStartsWith h "172.31." ||
  jsStartsWith h "192.168." || jsStartsWith h "127." || jsStartsWith h "169.254."

/-- Shallow embedding of `AuditService.validateUrlSafety` (audit.ts lines
    78-117).  The `URL` object is represented by its protocol and hostname;
    the DNS lookup is an explicit outcome.  The source's `catch` block
    re-throws exactly the errors whose message contains `"Cannot audit"`,
    so the private-address throw (whose message is
    `"Cannot audit private or internal IP addresses"`) escapes, while a DNS
    failure escapes only if its message happens to contain that marker. -/
def validateUrlSafety (protocol hostname : String) (dns : DnsOutcome) : GateResult :=
  if ¬ schemeAllowed protocol then .error "Only HTTP and HTTPS protocols are allowed"
  else
    let host := jsToLower hostname
    if literalHostDenylist host then .error "Cannot audit localhost or loopback addresses"
    else if privateHostnameTest host then .error "Cannot audit private or internal IP addresses"
    else
      match dns with
      | .resolved address =>
        if isPrivateIP address then .error "Cannot audit private or internal IP addresses"
        else .ok
      | .failed message =>
        if jsIncludes message "Cannot audit" then .error message else .ok

/-! ## Category scorers (audit.ts)

The scorers are pure functions of the parsed document, the fetch metrics and
the link results.  The DOM is abstracted into the feature counts and flags
each scorer actually reads; the prose `issues`/`recommendations` lists are
not modelled (only scores are claimed about).  The fractional literals
`0.30/0.25/0.20/0.15/0.10` are written as exact rationals. -/

/-- One slot of `MetaTagAnalysis` as the SEO scorer consumes it: presence
    (`!!content`) and JS string length of the content. -/
structure MetaTag where
  present : Bool
  contentLength : Nat
deriving DecidableEq

/-- `MetaTagAnalysis` (audit.ts lines 144-196), restricted to the slots the
    scorer reads. -/
structure MetaTagAnalysis where
  title : MetaTag
  description : MetaTag
  ogImage : MetaTag
  ogTitle : MetaTag
  ogDescription : MetaTag
  twitterCard : MetaTag
deriving DecidableEq

inductive Severity where
  | critical | warning | good
deriving DecidableEq

inductive WcagLevel where
  | A | AA | AAA
deriving DecidableEq

/-- An `AccessibilityIssue`, restricted to the fields the scoring reads. -/
structure AccessibilityIssue where
  type : String
  severity : Severity
  wcagLevel : Option WcagLevel
deriving DecidableEq

/-- `PerformanceMetrics` as the scorers read them. -/
structure PerformanceMetrics where
  loadTime : ℚ
  contentSize : ℚ
  httpRequests : ℚ
  firstPaint : ℚ
deriving DecidableEq

/-- `AuditStatistics`, restricted to the fields `analyzeTechnicalSEO` reads. -/
structure AuditStatistics where
  totalLinks : Nat
  internalLinks : Nat
deriving DecidableEq

/-- The features of the parsed document consumed by the scorers. -/
structure Doc where
  h1Count : Nat
  headingLevels : List Nat
  hasMain : Bool
  hasHeader : Bool
  hasNav : Bool
  hasFooter : Bool
  wordCount : Nat
  totalImages : Nat
  imagesWithAlt : Nat
  hasCanonical : Bool
  hasRobotsMeta : Bool
  hasSitemapLink : Bool
  hasHtmlLang : Bool
  hasSchemaMarkup : Bool
  hasViewportMeta : Bool
  viewportHasDeviceWidth : Bool
  viewportHasInitialScale : Bool
  hasForms : Bool
  formsWithoutLabels : Nat
  touchAdequate : Nat
  touchTooSmall : Nat
  textElementCount : Nat
  fontSizes : List ℚ
  smallTextElements : Nat
  optimizedImages : Nat
  hasWebP : Bool
  hasScreenMediaStylesheet : Bool
  styleTextIncludesMedia : Bool
  hasAppleTouchIcon : Bool
  structuredDataCount : Nat
  hasMobileStructuredData : Bool
deriving DecidableEq

/-- `AuditService.analyzeMetaTagsScore` (audit.ts lines 465-531). -/
def analyzeMetaTagsScore (m : MetaTagAnalysis) : ℤ :=
  let titlePenalty : ℤ :=
    if ¬ m.title.present then 25
    else if 60 < m.title.contentLength then 10
    else if m.title.contentLength < 30 then 10
    else 0
  let descriptionPenalty : ℤ :=
    if ¬ m.description.present then 20
    else if 160 < m.description.contentLength then 8
    else if m.description.contentLength < 120 then 5
    else 0
  let ogTitlePenalty : ℤ := if ¬ m.ogTitle.present then 10 else 0
  let ogDescriptionPenalty : ℤ := if ¬ m.ogDescription.present then 10 else 0
  let ogImagePenalty : ℤ := if ¬ m.ogImage.present then 15 else 0
  let twitterCardPenalty : ℤ := if ¬ m.twitterCard.present then 10 else 0
  max 0 (100 - titlePenalty - descriptionPenalty - ogTitlePenalty -
    ogDescriptionPenalty - ogImagePenalty - twitterCardPenalty)

/-- One step of the heading-hierarchy walk of `analyzeContentStructure`:
    state is (current score, previous level). -/
def hierarchyStep (acc : ℤ × Nat) (currentLevel : Nat) : ℤ × Nat :=
  if acc.2 + 1 < currentLevel then (acc.1 - 5, acc.2)
  else (acc.1, currentLevel)

/-- The heading-hierarchy walk of `analyzeContentStructure` (audit.ts lines
    551-562): each heading whose level jumps by more than one from the
    previous costs 5; the `return false` inside `forEach` does *not* exit the
    loop (it only ends that iteration, leaving `previousLevel` unchanged). -/
def hierarchyWalk (levels : List Nat) (score0 : ℤ) : ℤ :=
  (levels.foldl hierarchyStep (score0, 0)).1

/-- `AuditService.analyzeContentStructure` (audit.ts lines 533-620). -/
def analyzeContentStructure (doc : Doc) : ℤ :=
  let h1Penalty : ℤ :=
    if doc.h1Count = 0 then 20 else if 1 < doc.h1Count then 15 else 0
  let afterHierarchy := hierarchyWalk doc.headingLevels (100 - h1Penalty)
  let mainPenalty : ℤ := if ¬ doc.hasMain then 10 else 0
  let headerPenalty : ℤ := if ¬ doc.hasHeader then 8 else 0
  let navPenalty : ℤ := if ¬ doc.hasNav then 5 else 0
  let footerPenalty : ℤ := if ¬ doc.hasFooter then 5 else 0
  let wordPenalty : ℤ := if doc.wordCount < 300 then 15 else 0
  let imagesWithoutAlt := doc.totalImages - doc.imagesWithAlt
  let altPenalty : ℤ :=
    if 0 < imagesWithoutAlt then min 20 (imagesWithoutAlt * 5) else 0
  max 0 (afterHierarchy - mainPenalty - headerPenalty - navPenalty -
    footerPenalty - wordPenalty - altPenalty)

/-- `AuditService.analyzeTechnicalSEO` (audit.ts lines 622-688). -/
def analyzeTechnicalSEO (doc : Doc) (brokenLinksCount : Nat)
    (statistics : AuditStatistics) : ℤ :=
  let canonicalPenalty : ℤ := if ¬ doc.hasCanonical then 10 else 0
  let robotsPenalty : ℤ := if ¬ doc.hasRobotsMeta then 5 else 0
  let brokenPenalty : ℤ :=
    if 0 < brokenLinksCount then min 30 (brokenLinksCount * 5) else 0
  let sitemapPenalty : ℤ := if ¬ doc.hasSitemapLink then 8 else 0
  let langPenalty : ℤ := if ¬ doc.hasHtmlLang then 10 else 0
  let schemaPenalty : ℤ := if ¬ doc.hasSchemaMarkup then 15 else 0
  let internalShare : ℚ :=
    if 0 < statistics.totalLinks then
      (statistics.internalLinks : ℚ) / statistics.totalLinks else 0
  let linkingPenalty : ℤ := if internalShare < 3/10 then 10 else 0
  max 0 (100 - canonicalPenalty - robotsPenalty - brokenPenalty -
    sitemapPenalty - langPenalty - schemaPenalty - linkingPenalty)

/-- `AuditService.analyzePerformanceScore` (audit.ts lines 690-732). -/
def analyzePerformanceScore (p : PerformanceMetrics) : ℤ :=
  let loadPenalty : ℤ :=
    if 3000 < p.loadTime then 30 else if 2000 < p.loadTime then 15 else 0
  let firstPaintPenalty : ℤ := if 2000 < p.firstPaint then 20 else 0
  let sizePenalty : ℤ := if 1000000 < p.contentSize then 15 else 0
  let requestsPenalty : ℤ := if 50 < p.httpRequests then 10 else 0
  max 0 (100 - loadPenalty - firstPaintPenalty - sizePenalty - requestsPenalty)

/-- `AuditService.analyzeUserExperience` (audit.ts lines 734-786). -/
def analyzeUserExperience (doc : Doc) (issues : List AccessibilityIssue) : ℤ :=
  let viewportPenalty : ℤ := if ¬ doc.hasViewportMeta then 25 else 0
  let critical := (issues.filter fun i => i.severity = .critical).length
  let warning := (issues.filter fun i => i.severity = .warning).length
  let a11yPenalty : ℤ := critical * 15 + warning * 5
  let formPenalty : ℤ :=
    if doc.hasForms ∧ 0 < doc.formsWithoutLabels then 15 else 0
  max 0 (100 - viewportPenalty - a11yPenalty - formPenalty)

/-- `SEOScoring` as `calculateAdvancedSEOScoring` produces it (scores only). -/
structure SEOScoring where
  overallScore : ℤ
  metaTags : ℤ
  contentStructure : ℤ
  technicalSEO : ℤ
  performance : ℤ
  userExperience : ℤ
deriving DecidableEq

/-- `AuditService.calculateAdvancedSEOScoring` (audit.ts lines 405-463):
    category weights 30/25/20/15/10 percent; the weighted overall score is
    `Math.round`ed and becomes the audit's `overallScore` (line 1426). -/
def calculateAdvancedSEOScoring (doc : Doc) (metaTags : MetaTagAnalysis)
    (accessibilityIssues : List AccessibilityIssue) (brokenLinksCount : Nat)
    (performanceMetrics : PerformanceMetrics)
    (statistics : AuditStatistics) : SEOScoring :=
  let metaTagsScore := analyzeMetaTagsScore metaTags
  let contentStructureScore := analyzeContentStructure doc
  let technicalSEOScore := analyzeTechnicalSEO doc brokenLinksCount statistics
  let performanceScore := analyzePerformanceScore performanceMetrics
  let userExperienceScore := analyzeUserExperience doc accessibilityIssues
  { overallScore := jsRound ((metaTagsScore : ℚ) * (3/10) +
      (contentStructureScore : ℚ) * (1/4) + (technicalSEOScore : ℚ) * (1/5) +
      (performanceScore : ℚ) * (3/20) + (userExperienceScore : ℚ) * (1/10))
    metaTags := metaTagsScore
    contentStructure := contentStructureScore
    technicalSEO := technicalSEOScore
    performance := performanceScore
    userExperience := userExperienceScore }

/-! ### Accessibility scoring -/

inductive ComplianceLevel where
  | levelA | levelAA | levelAAA | levelNone
deriving DecidableEq

/-- `AccessibilityScoring` (scores and counts). -/
structure AccessibilityScoring where
  overallScore : ℤ
  wcagComplianceLevel : ComplianceLevel
  compliancePercentage : ℤ
  perceivable : ℤ
  operable : ℤ
  understandable : ℤ
  robust : ℤ
  criticalIssues : Nat
  warningIssues : Nat
  passedChecks : Nat
  totalChecks : Nat
deriving DecidableEq

/-- `AuditService.calculateCategoryScore` (audit.ts lines 1377-1385). -/
def calculateCategoryScore (issues : List AccessibilityIssue)
    (categoryTypes : List String) : ℤ :=
  let categoryIssues := issues.filter fun i => categoryTypes.contains i.type
  let criticalInCategory := (categoryIssues.filter fun i => i.severity = .critical).length
  let warningInCategory := (categoryIssues.filter fun i => i.severity = .warning).length
  max 0 (100 - (criticalInCategory * 20 + warningInCategory * 10))

/-- `AuditService.calculateAccessibilityScoring` (audit.ts lines 1326-1375). -/
def calculateAccessibilityScoring (issues : List AccessibilityIssue) : AccessibilityScoring :=
  let criticalIssues := (issues.filter fun i => i.severity = .critical).length
  let warningIssues := (issues.filter fun i => i.severity = .warning).length
  let passedChecks := (issues.filter fun i => i.severity = .good).length
  let levelACritical := (issues.filter fun i =>
    i.wcagLevel = some .A ∧ i.severity = .critical).length
  let levelAACritical := (issues.filter fun i =>
    i.wcagLevel = some .AA ∧ i.severity = .critical).length
  { overallScore := max 0 (100 - (criticalIssues * 15 + warningIssues * 5))
    wcagComplianceLevel :=
      if levelACritical = 0 ∧ levelAACritical = 0 then .levelAA
      else if levelACritical = 0 then .levelA
      else .levelNone
    compliancePercentage :=
      max 0 (jsRound (((10 : ℚ) - (criticalIssues + warningIssues : Nat)) / 10 * 100))
    perceivable := calculateCategoryScore issues
      ["Missing Alt Text", "Images with Empty Alt Text", "Potential Color Contrast Issues"]
    operable := calculateCategoryScore issues
      ["Interactive Elements Not Keyboard Accessible", "Missing Skip Links"]
    understandable := calculateCategoryScore issues
      ["Missing Language Declaration", "Missing Page Title"]
    robust := calculateCategoryScore issues
      ["Duplicate IDs", "Buttons Without Accessible Names", "Form Accessibility"]
    criticalIssues := criticalIssues
    warningIssues := warningIssues
    passedChecks := passedChecks
    totalChecks := issues.length }

/-! ### Mobile scoring -/

inductive ViewportStatus where
  | good | warning | error
deriving DecidableEq

/-- `AuditService.analyzeViewport` (audit.ts lines 852-879), status only. -/
def analyzeViewport (doc : Doc) : ViewportStatus :=
  if ¬ doc.hasViewportMeta then .error
  else if doc.viewportHasDeviceWidth ∧ doc.viewportHasInitialScale then .good
  else .warning

/-- `AuditService.analyzeTouchTargets` (audit.ts lines 881-932), score only:
    `adequateSize`/`tooSmall` are the counts the style heuristic produced. -/
def analyzeTouchTargets (doc : Doc) : ℤ :=
  let totalElements := doc.touchAdequate + doc.touchTooSmall
  let score : ℚ := 100
  let score :=
    if 0 < doc.touchTooSmall then
      max 0 (100 - (doc.touchTooSmall : ℚ) / totalElements * 100)
    else score
  let score := if totalElements = 0 then 50 else score
  jsRound score

/-- `AuditService.analyzeTextReadability` (audit.ts lines 934-982), score
    only: `fontSizes` is the list the style scan collected and
    `smallTextElements` the count of sub-16px elements. -/
def analyzeTextReadability (doc : Doc) : ℤ :=
  let score : ℚ := 100
  let score :=
    if 0 < doc.smallTextElements then
      max 0 (100 - (doc.smallTextElements : ℚ) / doc.textElementCount * 100)
    else score
  let averageFontSize : ℚ :=
    if 0 < doc.fontSizes.length then doc.fontSizes.sum / doc.fontSizes.length else 16
  let score := if averageFontSize < 14 then max (score - 20) 0 else score
  jsRound score

/-- `AuditService.analyzeMobilePerformance` (audit.ts lines 984-1041),
    score only. -/
def analyzeMobilePerformance (doc : Doc) (p : PerformanceMetrics) : ℤ :=
  let imageOptimization : ℚ :=
    if 0 < doc.totalImages then
      (doc.optimizedImages : ℚ) / doc.totalImages * 100 else 100
  let loadPenalty : ℤ := if 5000 < p.loadTime then 30 else 0
  let sizePenalty : ℤ := if 2000000 < p.contentSize then 20 else 0
  let imagePenalty : ℤ := if imageOptimization < 50 then 25 else 0
  let webpPenalty : ℤ := if ¬ doc.hasWebP ∧ 0 < doc.totalImages then 10 else 0
  max 0 (100 - loadPenalty - sizePenalty - imagePenalty - webpPenalty)

/-- `AuditService.analyzeMobileSEO` (audit.ts lines 1043-1107), score only
    (`ampSupport` is detected but never scored). -/
def analyzeMobileSEO (doc : Doc) : ℤ :=
  let mobileFriendlyMeta := doc.hasViewportMeta
  let responsiveDesign :=
    doc.hasScreenMediaStylesheet || doc.hasViewportMeta || doc.styleTextIncludesMedia
  let metaPenalty : ℤ := if ¬ mobileFriendlyMeta then 30 else 0
  let responsivePenalty : ℤ := if ¬ responsiveDesign then 25 else 0
  let iconPenalty : ℤ := if ¬ doc.hasAppleTouchIcon then 10 else 0
  let structuredPenalty : ℤ :=
    if ¬ doc.hasMobileStructuredData ∧ 0 < doc.structuredDataCount then 15 else 0
  max 0 (100 - metaPenalty - responsivePenalty - iconPenalty - structuredPenalty)

/-- `MobileAnalysis` as `analyzeMobileFriendliness` produces it (scores). -/
structure MobileAnalysis where
  overallScore : ℤ
  viewportStatus : ViewportStatus
  touchTargets : ℤ
  textReadability : ℤ
  mobilePerformance : ℤ
  mobileSEO : ℤ
deriving DecidableEq

/-- `AuditService.analyzeMobileFriendliness` (audit.ts lines 788-850):
    weighted overall mobile score (viewport contributes 20/10/0 points). -/
def analyzeMobileFriendliness (doc : Doc) (p : PerformanceMetrics) : MobileAnalysis :=
  let viewport := analyzeViewport doc
  let touchTargets := analyzeTouchTargets doc
  let textReadability := analyzeTextReadability doc
  let mobilePerformance := analyzeMobilePerformance doc p
  let mobileSEO := analyzeMobileSEO doc
  { overallScore := jsRound (
      (if viewport = .good then (20 : ℚ) else if viewport = .warning then 10 else 0) +
      (touchTargets : ℚ) * (1/4) + (textReadability : ℚ) * (1/5) +
      (mobilePerformance : ℚ) * (1/5) + (mobileSEO : ℚ) * (3/20))
    viewportStatus := viewport
    touchTargets := touchTargets
    textReadability := textReadability
    mobilePerformance := mobilePerformance
    mobileSEO := mobileSEO }

/-- `x` lies within the documented score range `[0, 100]`. -/
def inBounds (x : ℤ) : Prop := 0 ≤ x ∧ x ≤ 100

/-! ## Historical Insights service (historical-insights.service.ts) -/

/-- A `PerformanceHistory` record (shared schema), restricted to the fields
    the trend analysis reads.  `recordedAt` is the timestamp in milliseconds
    (`new Date(...).getTime()`); optional category scores are `null`able. -/
structure PerformanceHistory where
  recordedAt : ℚ
  overallScore : ℚ
  seoScore : Option ℚ
  accessibilityScore : Option ℚ
  mobileScore : Option ℚ
  performanceScore : Option ℚ
deriving DecidableEq

inductive TimePeriod where
  | p7d | p30d | p90d | p1y
deriving DecidableEq

inductive TrendDirection where
  | improving | declining | stable
deriving DecidableEq

inductive TrendStrength where
  | weak | moderate | strong
deriving DecidableEq

inductive Magnitude where
  | minor | moderate | major
deriving DecidableEq

inductive ChangeType where
  | improvement | regression
deriving DecidableEq

inductive MetricCategory where
  | overall | seo | accessibility | mobile | performance
deriving DecidableEq

structure TrendAnalysisParams where
  minimumDataPoints : Nat
  significanceThreshold : ℚ
deriving DecidableEq

/-- `HistoricalInsightsService.TREND_PARAMS` (lines 14-19). -/
def TREND_PARAMS : TimePeriod → TrendAnalysisParams
  | .p7d => ⟨3, 5⟩
  | .p30d => ⟨5, 8⟩
  | .p90d => ⟨8, 10⟩
  | .p1y => ⟨12, 15⟩

/-- JS `[...history].sort((a, b) => timeA - timeB)`: a stable ascending sort
    by `recordedAt`, modelled by insertion sort (stable, so it computes the
    same list as the source's stable sort). -/
def sortByRecordedAt (history : List PerformanceHistory) : List PerformanceHistory :=
  List.insertionSort (fun a b => a.recordedAt ≤ b.recordedAt) history

/-- Result shape of `calculateAverageScores`. -/
structure AverageScores where
  overall : ℚ
  seo : Option ℚ
  accessibility : Option ℚ
  mobile : Option ℚ
  performance : Option ℚ
deriving DecidableEq

/-- `HistoricalInsightsService.calculateAverageScores` (lines 361-417):
    the mean of `overallScore` over all records, and the mean of each
    optional score over its non-null records (`null` if none). -/
def calculateAverageScores (history : List PerformanceHistory) : AverageScores :=
  if history = [] then ⟨0, none, none, none, none⟩
  else
    let avgOpt : List ℚ → Option ℚ := fun vs =>
      if 0 < vs.length then some (vs.sum / vs.length) else none
    { overall := (history.map (·.overallScore)).sum / history.length
      seo := avgOpt (history.filterMap (·.seoScore))
      accessibility := avgOpt (history.filterMap (·.accessibilityScore))
      mobile := avgOpt (history.filterMap (·.mobileScore))
      performance := avgOpt (history.filterMap (·.performanceScore)) }

/-- `HistoricalInsightsService.detectOverallTrend` (lines 87-102).
    `slice(Math.ceil(n/2))` is `drop ⌈n/2⌉` and `slice(0, Math.floor(n/2))`
    is `take ⌊n/2⌋`. -/
def detectOverallTrend (history : List PerformanceHistory) : TrendDirection :=
  if history.length < 2 then .stable
  else
    let sorted := sortByRecordedAt history
    let recentHalf := sorted.drop ((sorted.length + 1) / 2)
    let earlierHalf := sorted.take (sorted.length / 2)
    let overallChange :=
      (calculateAverageScores recentHalf).overall - (calculateAverageScores earlierHalf).overall
    if 5 ≤ overallChange then .improving
    else if overallChange ≤ -5 then .declining
    else .stable

/-- `HistoricalInsightsService.calculateConsecutiveChanges` (lines 419-431). -/
def calculateConsecutiveChanges (history : List PerformanceHistory) : List ℚ :=
  if history.length < 2 then []
  else
    let sorted := sortByRecordedAt history
    (sorted.zip sorted.tail).map (fun p => p.2.overallScore - p.1.overallScore)

/-- `HistoricalInsightsService.calculateConsistencyScore` (lines 433-446). -/
def calculateConsistencyScore (changes : List ℚ) (trend : TrendDirection) : ℚ :=
  if changes = [] then 0
  else
    let expectedDirection : ℚ := if trend = .improving then 1 else -1
    let consistentChanges :=
      (changes.filter fun c =>
        decide (0 < c ∧ 0 < expectedDirection) || decide (c < 0 ∧ expectedDirection < 0)).length
    (consistentChanges : ℚ) / changes.length * 100

/-- `HistoricalInsightsService.calculateMagnitudeScore` (lines 448-453). -/
def calculateMagnitudeScore (changes : List ℚ) : ℚ :=
  if changes = [] then 0
  else
    let averageMagnitude := (changes.map abs).sum / changes.length
    min 100 (averageMagnitude * 5)

/-- `HistoricalInsightsService.calculateTrendStrength` (lines 107-119). -/
def calculateTrendStrength (history : List PerformanceHistory)
    (trend : TrendDirection) : TrendStrength :=
  if trend = .stable then .weak
  else
    let changes := calculateConsecutiveChanges history
    let strengthScore :=
      (calculateConsistencyScore changes trend + calculateMagnitudeScore changes) / 2
    if 75 ≤ strengthScore then .strong
    else if 50 ≤ strengthScore then .moderate
    else .weak

/-- `HistoricalInsightsService.classifyMagnitude` (lines 741-745). -/
def classifyMagnitude (change threshold : ℚ) : Magnitude :=
  if threshold * (5/2) ≤ change then .major
  else if threshold * (3/2) ≤ change then .moderate
  else .minor

/-- A `SignificantChange`, restricted to the non-presentational fields (the
    prose `description`/`impact`/`possibleCauses` strings are not modelled). -/
structure SignificantChange where
  category : MetricCategory
  type : ChangeType
  magnitude : Magnitude
  scoreChange : ℚ
  percentageChange : ℚ
deriving DecidableEq

/-- JS `Math.round(x * 100) / 100`. -/
def round2 (x : ℚ) : ℚ := (jsRound (x * 100) : ℚ) / 100

/-- The `metrics` array built by `identifyImprovements`/`identifyRegressions`
    (lines 163-169 and 206-212): category, recent average, baseline average.
    `Overall` is a plain number in the source, hence always non-null. -/
def metricsOf (recent baseline : AverageScores) :
    List (MetricCategory × Option ℚ × Option ℚ) :=
  [(.overall, some recent.overall, some baseline.overall),
   (.seo, recent.seo, baseline.seo),
   (.accessibility, recent.accessibility, baseline.accessibility),
   (.mobile, recent.mobile, baseline.mobile),
   (.performance, recent.performance, baseline.performance)]

/-- `HistoricalInsightsService.identifyImprovements` (lines 153-192).
    `slice(-5)` is `drop (n - 5)`, `slice(0, 5)` is `take 5`. -/
def identifyImprovements (history : List PerformanceHistory)
    (threshold : ℚ) : List SignificantChange :=
  if history.length < 2 then []
  else
    let sorted := sortByRecordedAt history
    let recentAvg := calculateAverageScores (sorted.drop (sorted.length - 5))
    let baselineAvg := calculateAverageScores (sorted.take 5)
    (metricsOf recentAvg baselineAvg).filterMap fun m =>
      match m.2.1, m.2.2 with
      | some recent, some baseline =>
        let change := recent - baseline
        let percentage := if 0 < baseline then change / baseline * 100 else 0
        if threshold ≤ change then
          some { category := m.1, type := .improvement,
                 magnitude := classifyMagnitude |change| threshold,
                 scoreChange := round2 change, percentageChange := round2 percentage }
        else none
      | _, _ => none

/-- `HistoricalInsightsService.identifyRegressions` (lines 197-235). -/
def identifyRegressions (history : List PerformanceHistory)
    (threshold : ℚ) : List SignificantChange :=
  if history.length < 2 then []
  else
    let sorted := sortByRecordedAt history
    let recentAvg := calculateAverageScores (sorted.drop (sorted.length - 5))
    let baselineAvg := calculateAverageScores (sorted.take 5)
    (metricsOf recentAvg baselineAvg).filterMap fun m =>
      match m.2.1, m.2.2 with
      | some recent, some baseline =>
        let change := recent - baseline
        let percentage := if 0 < baseline then change / baseline * 100 else 0
        if change ≤ -threshold then
          some { category := m.1, type := .regression,
                 magnitude := classifyMagnitude |change| threshold,
                 scoreChange := round2 change, percentageChange := round2 percentage }
        else none
      | _, _ => none

/-- `HistoricalInsightsService.calculateDataConsistency` (lines 659-675). -/
def calculateDataConsistency (history : List PerformanceHistory) : ℚ :=
  if history = [] then 0
  else
    let totalFields : ℚ := 5 * history.length
    let nullFields : ℚ := (history.map fun r =>
      ((if r.seoScore = none then 1 else 0) + (if r.accessibilityScore = none then 1 else 0) +
       (if r.mobileScore = none then 1 else 0) +
       (if r.performanceScore = none then 1 else 0) : ℚ)).sum
    (totalFields - nullFields) / totalFields * 100

/-- `HistoricalInsightsService.getExpectedTimeSpan` (lines 707-716), in ms. -/
def getExpectedTimeSpan : TimePeriod → ℚ
  | .p7d => 7 * 86400000
  | .p30d => 30 * 86400000
  | .p90d => 90 * 86400000
  | .p1y => 365 * 86400000

/-- `HistoricalInsightsService.calculateTimeSpanCoverage` (lines 677-688). -/
def calculateTimeSpanCoverage (history : List PerformanceHistory)
    (timePeriod : TimePeriod) : ℚ :=
  if history = [] then 0
  else
    let sorted := sortByRecordedAt history
    let firstDate := (sorted.headD ⟨0, 0, none, none, none, none⟩).recordedAt
    let lastDate := (sorted.getLastD ⟨0, 0, none, none, none, none⟩).recordedAt
    min 100 ((lastDate - firstDate) / getExpectedTimeSpan timePeriod * 100)

/-- `HistoricalInsightsService.calculateDataFreshness` (lines 690-705); the
    source sorts descending and reads the newest record. -/
def calculateDataFreshness (history : List PerformanceHistory) (now : ℚ) : ℚ :=
  if history = [] then 0
  else
    let sortedDesc := List.insertionSort (fun a b => b.recordedAt ≤ a.recordedAt) history
    let latestDate := (sortedDesc.headD ⟨0, 0, none, none, none, none⟩).recordedAt
    let daysSinceLatest := (now - latestDate) / 86400000
    if daysSinceLatest ≤ 1 then 100
    else if daysSinceLatest ≤ 3 then 80
    else if daysSinceLatest ≤ 7 then 60
    else if daysSinceLatest ≤ 14 then 40
    else if daysSinceLatest ≤ 30 then 20
    else 10

/-- `HistoricalInsightsService.calculateConfidenceScore` (lines 314-335). -/
def calculateConfidenceScore (history : List PerformanceHistory)
    (timePeriod : TimePeriod) (now : ℚ) : ℤ :=
  let minRequired := (TREND_PARAMS timePeriod).minimumDataPoints
  let dataQuantityScore := min 100 ((history.length : ℚ) / (minRequired * 2) * 100)
  let confidence := dataQuantityScore * (3/10) + calculateDataConsistency history * (1/4) +
    calculateTimeSpanCoverage history timePeriod * (1/4) +
    calculateDataFreshness history now * (1/5)
  jsRound (max 0 (min 100 confidence))

/-- The analysis record produced by `generateTrendAnalysis`, restricted to
    the fields the claims are about (the prose `keyInsights` and
    `recommendations` lists are not modelled). -/
structure TrendAnalysisData where
  timePeriod : TimePeriod
  overallTrend : TrendDirection
  trendStrength : TrendStrength
  improvements : List SignificantChange
  regressions : List SignificantChange
  confidenceScore : ℤ
deriving DecidableEq

/-- `HistoricalInsightsService.createInsufficientDataAnalysis`
    (lines 774-807): the fixed "need more data" analysis. -/
def createInsufficientDataAnalysis (timePeriod : TimePeriod) : TrendAnalysisData :=
  { timePeriod := timePeriod, overallTrend := .stable, trendStrength := .weak,
    improvements := [], regressions := [], confidenceScore := 10 }

/-- `HistoricalInsightsService.generateTrendAnalysis` (lines 28-66), as a
    function of the date-filtered history returned by the storage query and
    of the current time (`Date.now`, read by the freshness factor). -/
def generateTrendAnalysis (performanceHistory : List PerformanceHistory)
    (timePeriod : TimePeriod) (now : ℚ) : TrendAnalysisData :=
  let params := TREND_PARAMS timePeriod
  if performanceHistory.length < params.minimumDataPoints then
    createInsufficientDataAnalysis timePeriod
  else
    let overallTrend := detectOverallTrend performanceHistory
    { timePeriod := timePeriod
      overallTrend := overallTrend
      trendStrength := calculateTrendStrength performanceHistory overallTrend
      improvements := identifyImprovements performanceHistory params.significanceThreshold
      regressions := identifyRegressions performanceHistory params.significanceThreshold
      confidenceScore := calculateConfidenceScore performanceHistory timePeriod now }

/-! ## Link Integrity Checker — `AuditService.checkLinks` (audit.ts lines 283-387)

The loop is embedded as a fold over the anchor list with explicit state; the
network is an oracle environment, and the probes actually performed are made
visible as a trace (`probed`), since the claims are about the loop's
effects. -/

/-- Outcome of one axios request: a fulfilled response with its status, or a
    rejection that may carry a response status (`error.response.status`);
    transport-level failures (DNS, connection refused) carry none. -/
inductive AxiosOutcome where
  | success (status : Nat)
  | failure (status : Option Nat)
deriving DecidableEq

/-- Everything the `checkLinks` loop consults outside the DOM:
    `new URL(href, base).toString()` (`resolve`, `none` = constructor throw),
    `new URL(u).origin` (`origin`), the Safety Gate verdict (`gateAccepts`),
    and the HEAD/GET request outcomes. -/
structure LinkEnv where
  resolve : String → String → Option String
  origin : String → Option String
  gateAccepts : String → Bool
  headRequest : String → AxiosOutcome
  getRequest : String → AxiosOutcome

/-- An anchor element: its `href` attribute and its DOM context
    (`findLinkContext` is a pure function of the DOM, precomputed here). -/
structure Anchor where
  href : String
  context : String
deriving DecidableEq

/-- A `BrokenLink` entry `{url, status, foundIn, type}`. -/
structure BrokenLink where
  url : String
  status : Nat
  foundIn : String
  isInternal : Bool
deriving DecidableEq

/-- The `checkLinks` loop state: the accumulated `brokenLinks`, the
    `checkedUrls` set, the `checkedCount`, and the trace of URLs actually
    probed over the network. -/
structure LinkCheckState where
  brokenLinks : List BrokenLink
  checkedUrls : List String
  checkedCount : Nat
  probed : List String
deriving DecidableEq

/-- URL resolution and internal/external classification (audit.ts lines
    298-311); `none` models a `new URL` throw, handled by the outer
    `catch { continue }`. -/
def resolveAnchor (env : LinkEnv) (baseUrl href : String) :
    Option (String × Bool) :=
  if jsStartsWith href "/" then
    match env.resolve href baseUrl with
    | some u => some (u, true)
    | none => none
  else if jsStartsWith href "http" then
    match env.origin href, env.origin baseUrl with
    | some o1, some o2 => some (href, o1 = o2)
    | _, _ => none
  else
    match env.resolve href baseUrl with
    | some u => some (u, true)
    | none => none

/-- The flattened HEAD-then-GET probe with its `try`/`catch` (audit.ts lines
    329-379): the status recorded as a BrokenLink, if any.
    * fulfilled HEAD (or fallback GET) response: recorded iff status ≥ 400;
    * HEAD rejection carrying 405/501: fall back to GET;
    * a rejection carrying a response status records that status
      unconditionally (the `catch` block has no `≥ 400` check);
    * a rejection without a status records nothing. -/
def probeRecords (env : LinkEnv) (url : String) : Option Nat :=
  match env.headRequest url with
  | .success s => if 400 ≤ s then some s else none
  | .failure (some s) =>
    if s = 405 ∨ s = 501 then
      match env.getRequest url with
      | .success s2 => if 400 ≤ s2 then some s2 else none
      | .failure (some s2) => some s2
      | .failure none => none
    else some s
  | .failure none => none

/-- One iteration of the `checkLinks` loop body (audit.ts lines 290-384).
    Fragment/mailto/tel/empty hrefs are skipped; the URL is deduplicated and
    counted before the Gate re-check; a Gate rejection of an external link
    skips the probe (but the URL stays counted). -/
def checkLinksStep (env : LinkEnv) (baseUrl : String) (st : LinkCheckState)
    (a : Anchor) : LinkCheckState :=
  if a.href = "" ∨ jsStartsWith a.href "#" ∨ jsStartsWith a.href "mailto:" ∨
      jsStartsWith a.href "tel:" then st
  else
    match resolveAnchor env baseUrl a.href with
    | none => st
    | some (absoluteUrl, isInternal) =>
      if absoluteUrl ∈ st.checkedUrls then st
      else
        let st1 : LinkCheckState :=
          { st with checkedUrls := absoluteUrl :: st.checkedUrls
                    checkedCount := st.checkedCount + 1 }
        if ¬ isInternal ∧ ¬ env.gateAccepts absoluteUrl then st1
        else
          let st2 : LinkCheckState := { st1 with probed := absoluteUrl :: st1.probed }
          match probeRecords env absoluteUrl with
          | some status =>
            { st2 with brokenLinks := st2.brokenLinks ++
                [⟨absoluteUrl, status, a.context, isInternal⟩] }
          | none => st2

/-- The `for` loop of `checkLinks`: its condition
    `i < links.length && checkedCount < maxLinksToCheck` is re-tested before
    every iteration (`maxLinksToCheck = 50`). -/
def checkLinksLoop (env : LinkEnv) (baseUrl : String) :
    List Anchor → LinkCheckState → LinkCheckState
  | [], st => st
  | a :: rest, st =>
    if 50 ≤ st.checkedCount then st
    else checkLinksLoop env baseUrl rest (checkLinksStep env baseUrl st a)

/-- `AuditService.checkLinks` (audit.ts lines 283-387). -/
def checkLinks (env : LinkEnv) (baseUrl : String)
    (anchors : List Anchor) : LinkCheckState :=
  checkLinksLoop env baseUrl anchors ⟨[], [], 0, []⟩

/-! ## Trend-analysis storage — `MemStorage.createOrUpdateTrendAnalysis`
    (storage.ts lines 289-314) -/

/-- The textual form of a time period, as used in the map key. -/
def timePeriodKey : TimePeriod → String
  | .p7d => "7d"
  | .p30d => "30d"
  | .p90d => "90d"
  | .p1y => "1y"

/-- The map key `` `${historicalTrackingId}_${timePeriod}` ``. -/
def trendKey (trackingId : String) (p : TimePeriod) : String :=
  trackingId ++ "_" ++ timePeriodKey p

/-- A stored `TrendAnalysis` row: generated `id`, the key fields, the
    analysis payload and the `analysisDate` (ms timestamp). -/
structure TrendAnalysisRecord where
  id : Nat
  historicalTrackingId : String
  timePeriod : TimePeriod
  analysis : TrendAnalysisData
  analysisDate : Nat
deriving DecidableEq

/-- An `InsertTrendAnalysis`: the key fields plus the analysis payload. -/
structure InsertTrend where
  historicalTrackingId : String
  timePeriod : TimePeriod
  analysis : TrendAnalysisData
deriving DecidableEq

/-- The `trendAnalyses` JS `Map`, as an insertion-ordered association list. -/
abbrev TrendStore := List (String × TrendAnalysisRecord)

/-- JS `Map.prototype.get`: first binding of the key. -/
def mapGet : TrendStore → String → Option TrendAnalysisRecord
  | [], _ => none
  | (k', v') :: rest, k => if k' = k then some v' else mapGet rest k

/-- JS `Map.prototype.set`: replace the binding in place, or append. -/
def mapSet : TrendStore → String → TrendAnalysisRecord → TrendStore
  | [], k, v => [(k, v)]
  | (k', v') :: rest, k, v =>
    if k' = k then (k, v) :: rest else (k', v') :: mapSet rest k v

/-- `MemStorage.createOrUpdateTrendAnalysis` (storage.ts lines 289-314):
    an existing record for the key is overwritten in place
    (`{...existing, ...insertAnalysis, analysisDate}` keeps the old `id`);
    otherwise a fresh record is inserted under a new id. -/
def createOrUpdateTrendAnalysis (store : TrendStore) (ins : InsertTrend)
    (newId : Nat) (now : Nat) : TrendStore :=
  let key := trendKey ins.historicalTrackingId ins.timePeriod
  match mapGet store key with
  | some existing =>
    mapSet store key
      { id := existing.id, historicalTrackingId := ins.historicalTrackingId,
        timePeriod := ins.timePeriod, analysis := ins.analysis, analysisDate := now }
  | none =>
    mapSet store key
      { id := newId, historicalTrackingId := ins.historicalTrackingId,
        timePeriod := ins.timePeriod, analysis := ins.analysis, analysisDate := now }

/-- The states of the trend-analysis store reachable from the empty map
    through `createOrUpdateTrendAnalysis` calls. -/
inductive ReachableStore : TrendStore → Prop where
  | empty : ReachableStore []
  | step (s : TrendStore) (ins : InsertTrend) (newId now : Nat) :
      ReachableStore s → ReachableStore (createOrUpdateTrendAnalysis s ins newId now)

/-! ## Concrete inputs used by witnesses -/

/-- The concrete ten-record history for the C4 witness: five audits scoring
    50 followed by five scoring 80. -/
def c4History : List PerformanceHistory :=
  [⟨0, 50, none, none, none, none⟩, ⟨1, 50, none, none, none, none⟩,
   ⟨2, 50, none, none, none, none⟩, ⟨3, 50, none, none, none, none⟩,
   ⟨4, 50, none, none, none, none⟩, ⟨5, 80, none, none, none, none⟩,
   ⟨6, 80, none, none, none, none⟩, ⟨7, 80, none, none, none, none⟩,
   ⟨8, 80, none, none, none, none⟩, ⟨9, 80, none, none, none, none⟩]

/-- A concrete link environment in which the HEAD probe of the external link
    rejects with a `304 Not Modified` response (axios's default
    `validateStatus` accepts only 2xx, so a 304 arrives as a rejection that
    carries a response). -/
def c7Env : LinkEnv :=
  { resolve := fun _ _ => none
    origin := fun u => if u = "http://site.example/" then some "http://site.example"
                       else some "http://ext.example"
    gateAccepts := fun _ => true
    headRequest := fun _ => .failure (some 304)
    getRequest := fun _ => .failure none }

/-- A concrete insert for the C8 witness, keyed on one fixed
    (trackingId, timePeriod) pair. -/
def c8Insert (score : ℤ) : InsertTrend :=
  ⟨"track-1", .p30d, ⟨.p30d, .stable, .weak, [], [], score⟩⟩

end SitePulse

namespace SitePulse

/-! ## Theorems for claims C1 and C2 -/

/-- `parseOctet` success determines `jsNumber` and a 0-255 bound. -/
theorem parseOctet_eq_some {w : String} {a : Nat} (h : parseOctet w = some a) :
    jsNumber w = some a ∧ a ≤ 255 := by
  unfold parseOctet at h
  split at h
  · exact absurd h (by simp)
  · cases hn : jsNumber w with
    | none => rw [hn] at h; exact absurd h (by simp)
    | some v =>
      rw [hn] at h
      by_cases hv : v ≤ 255
      · simp only [hv, if_true, Option.some.injEq] at h
        subst h
        exact ⟨rfl, hv⟩
      · simp [hv] at h

/-- The IPv4 branch of `isPrivateIP` agrees with the documented IPv4
    ranges on genuine octet values. -/
theorem isPrivateIPv4Parts_eq_ranges (a b c d : Nat) :
    isPrivateIPv4Parts [some a, some b, some c, some d] = ipv4InDocumentedRanges a b := by
  simp only [isPrivateIPv4Parts, ipv4InDocumentedRanges]
  split_ifs with h1 h2 h3 h4 h5 h6 h7 <;>
    simp_all

/-- **C1 (amended)**: on every textual IPv4 address the private-IP
    classifier agrees exactly with the documented range partition
    (loopback 127/8, 10/8, 172.16/12, 192.168/16, 169.254/16, 0/8, 224/4). -/
theorem C1_isPrivateIP_agrees_with_ranges_on_ipv4 (s : String) (a b c d : Nat)
    (h : parseIPv4 s = some (a, b, c, d)) :
    isPrivateIP s = ipv4InDocumentedRanges a b := by
  unfold parseIPv4 at h
  split at h
  · exact absurd h (by simp)
  · rename_i hcolon
    unfold isPrivateIP
    rw [if_neg hcolon]
    cases hl : jsSplitChar s '.' with
    | nil => rw [hl] at h; exact absurd h (by simp [parseIPv4Parts])
    | cons w t0 =>
      rw [hl] at h
      cases t0 with
      | nil => exact absurd h (by simp [parseIPv4Parts])
      | cons x t1 =>
        cases t1 with
        | nil => exact absurd h (by simp [parseIPv4Parts])
        | cons y t2 =>
          cases t2 with
          | nil => exact absurd h (by simp [parseIPv4Parts])
          | cons z t3 =>
            cases t3 with
            | cons u t4 => exact absurd h (by simp [parseIPv4Parts])
            | nil =>
              simp only [parseIPv4Parts] at h
              cases hpw : parseOctet w with
              | none => rw [hpw] at h; simp at h
              | some a' =>
                rw [hpw] at h
                cases hpx : parseOctet x with
                | none => rw [hpx] at h; simp at h
                | some b' =>
                  rw [hpx] at h
                  cases hpy : parseOctet y with
                  | none => rw [hpy] at h; simp at h
                  | some c' =>
                    rw [hpy] at h
                    cases hpz : parseOctet z with
                    | none => rw [hpz] at h; simp at h
                    | some d' =>
                      rw [hpz] at h
                      simp only [Option.some.injEq, Prod.mk.injEq] at h
                      obtain ⟨ha, hb, hc, hd⟩ := h
                      subst ha; subst hb; subst hc; subst hd
                      simp only [List.map_cons, List.map_nil]
                      rw [(parseOctet_eq_some hpw).1, (parseOctet_eq_some hpx).1,
                          (parseOctet_eq_some hpy).1, (parseOctet_eq_some hpz).1]
                      exact isPrivateIPv4Parts_eq_ranges a' b' c' d'

/-- Witness for `C1_isPrivateIP_agrees_with_ranges_on_ipv4` at the concrete
    RFC1918 address `172.17.0.1`. -/
theorem C1_isPrivateIP_agrees_witness :
    parseIPv4 "172.17.0.1" = some (172, 17, 0, 1) ∧
    isPrivateIP "172.17.0.1" = ipv4InDocumentedRanges 172 17 :=
  ⟨by decide, C1_isPrivateIP_agrees_with_ranges_on_ipv4 "172.17.0.1" 172 17 0 1 (by decide)⟩

/-- **C1 (counterexample)**: the address `fe81::1` lies inside the documented
    IPv6 link-local range `fe80::/10`, yet the classifier accepts it (the
    code only tests for the literal first hextet `fe80`), so the classifier
    does not agree with the documented range partition. -/
theorem C1_claim_counterexample :
    parseIP "fe81::1" = some (IPAddr.v6 [0xfe81, 0, 0, 0, 0, 0, 0, 1]) ∧
    isPrivateIP "fe81::1" = false ∧
    inDocumentedRanges (IPAddr.v6 [0xfe81, 0, 0, 0, 0, 0, 0, 1]) = true := by
  refine ⟨by decide, by decide, by decide⟩

/-- **C2**: the Safety Gate fails open.  Provided a DNS-failure message does
    not contain the in-band marker `"Cannot audit"` (genuine `dns.lookup`
    error messages never do), the Gate succeeds if and only if the scheme is
    allowed, the literal hostname checks pass, and a successful resolution
    did not yield a private address — in particular a DNS lookup failure
    alone never causes a rejection. -/
theorem C2_validateUrlSafety_fail_open (protocol hostname : String) (dns : DnsOutcome)
    (hmsg : match dns with
            | .failed m => jsIncludes m "Cannot audit" = false
            | .resolved _ => True) :
    validateUrlSafety protocol hostname dns = .ok ↔
      (schemeAllowed protocol = true ∧
       literalHostDenylist (jsToLower hostname) = false ∧
       privateHostnameTest (jsToLower hostname) = false ∧
       match dns with
       | .resolved a => isPrivateIP a = false
       | .failed _ => True) := by
  unfold validateUrlSafety
  by_cases h1 : schemeAllowed protocol = true
  · by_cases h2 : literalHostDenylist (jsToLower hostname) = true
    · simp [h1, h2]
    · by_cases h3 : privateHostnameTest (jsToLower hostname) = true
      · simp [h1, h2, h3]
      · cases dns with
        | resolved a =>
          by_cases h4 : isPrivateIP a = true
          · simp [h1, h2, h3, h4]
          · simp [h1, h2, h3, h4]
        | failed m =>
          simp only at hmsg
          simp [h1, h2, h3, hmsg]
  · simp [h1]

/-- Witness for `C2_validateUrlSafety_fail_open`: a DNS failure for
    `https://example.com` is allowed to proceed. -/
theorem C2_validateUrlSafety_fail_open_witness :
    validateUrlSafety "https:" "example.com"
      (.failed "getaddrinfo ENOTFOUND example.com") = .ok :=
  (C2_validateUrlSafety_fail_open "https:" "example.com"
    (.failed "getaddrinfo ENOTFOUND example.com") (by decide)).mpr
    ⟨by decide, by decide, by decide, trivial⟩

/-! ## Theorems for claims C4, C5, C9, C10 (trend analysis) -/

/-- **C5**: with fewer records in the period's date range than the
    period-specific minimum (3/5/8/12 for 7d/30d/90d/1y),
    `generateTrendAnalysis` returns the fixed InsufficientData analysis:
    trend `stable`, strength `weak`, empty improvements and regressions,
    and confidence score exactly 10. -/
theorem C5_insufficient_data (history : List PerformanceHistory)
    (timePeriod : TimePeriod) (now : ℚ)
    (h : history.length < (TREND_PARAMS timePeriod).minimumDataPoints) :
    generateTrendAnalysis history timePeriod now =
      { timePeriod := timePeriod, overallTrend := .stable, trendStrength := .weak,
        improvements := [], regressions := [], confidenceScore := 10 } := by
  simp [generateTrendAnalysis, createInsufficientDataAnalysis, h]

/-- Witness for `C5_insufficient_data`: two records under the 30d minimum
    of five. -/
theorem C5_insufficient_data_witness :
    generateTrendAnalysis
      [⟨0, 40, none, none, none, none⟩, ⟨1, 60, none, none, none, none⟩] .p30d 0 =
      { timePeriod := .p30d, overallTrend := .stable, trendStrength := .weak,
        improvements := [], regressions := [], confidenceScore := 10 } :=
  C5_insufficient_data _ _ _ (by decide)

/-- **C10**: `calculateTrendStrength` returns `weak` unconditionally on a
    `stable` trend, so no produced analysis pairs `overallTrend = stable`
    with strength `moderate` or `strong`. -/
theorem C10_stable_trend_weak_strength (history : List PerformanceHistory)
    (timePeriod : TimePeriod) (now : ℚ) :
    calculateTrendStrength history .stable = .weak ∧
    ((generateTrendAnalysis history timePeriod now).overallTrend = .stable →
      (generateTrendAnalysis history timePeriod now).trendStrength = .weak) := by
  refine ⟨by simp [calculateTrendStrength], fun h => ?_⟩
  by_cases hlen : history.length < (TREND_PARAMS timePeriod).minimumDataPoints
  · simp [generateTrendAnalysis, createInsufficientDataAnalysis, hlen]
  · simp only [generateTrendAnalysis, hlen, if_false] at h ⊢
    rw [h]
    simp [calculateTrendStrength]

/-- Witness for `C10_stable_trend_weak_strength` at a one-record history
    (insufficient for 7d, hence a `stable` analysis). -/
theorem C10_stable_trend_weak_strength_witness :
    (generateTrendAnalysis [⟨0, 50, none, none, none, none⟩] .p7d 0).trendStrength =
      .weak :=
  (C10_stable_trend_weak_strength [⟨0, 50, none, none, none, none⟩] .p7d 0).2 (by decide)

/-- **C9**: on a history of at most five records the most-recent-5 window
    (`slice(-5)`) and the earliest-5 window (`slice(0, 5)`) select the same
    records, so every per-metric change is 0 and, for any positive
    significance threshold, no improvement or regression is ever flagged. -/
theorem C9_short_history_no_significant_changes (history : List PerformanceHistory)
    (threshold : ℚ) (hlen : history.length ≤ 5) (hthr : 0 < threshold) :
    identifyImprovements history threshold = [] ∧
    identifyRegressions history threshold = [] := by
  by_cases h2 : history.length < 2
  · refine ⟨?_, ?_⟩ <;> simp [identifyImprovements, identifyRegressions, h2]
  · have hslen : (sortByRecordedAt history).length = history.length :=
      List.length_insertionSort _ _
    have hdrop : (sortByRecordedAt history).drop ((sortByRecordedAt history).length - 5) =
        sortByRecordedAt history := by
      have h0 : (sortByRecordedAt history).length - 5 = 0 := by omega
      rw [h0, List.drop_zero]
    have htake : (sortByRecordedAt history).take 5 = sortByRecordedAt history :=
      List.take_of_length_le (by omega)
    have himp : ¬ (threshold ≤ (0 : ℚ)) := not_le.mpr hthr
    have hreg : ¬ ((0 : ℚ) ≤ -threshold) := by
      rw [not_le, neg_lt, neg_zero]; exact hthr
    refine ⟨?_, ?_⟩
    · simp only [identifyImprovements, h2, if_false, hdrop, htake]
      generalize calculateAverageScores (sortByRecordedAt history) = A
      cases hseo : A.seo <;> cases hacc : A.accessibility <;>
        cases hmob : A.mobile <;> cases hperf : A.performance <;>
        simp [metricsOf, hseo, hacc, hmob, hperf, sub_self, himp, hthr]
    · simp only [identifyRegressions, h2, if_false, hdrop, htake]
      generalize calculateAverageScores (sortByRecordedAt history) = A
      cases hseo : A.seo <;> cases hacc : A.accessibility <;>
        cases hmob : A.mobile <;> cases hperf : A.performance <;>
        simp [metricsOf, hseo, hacc, hmob, hperf, sub_self, himp, hreg, hthr]

/-- Witness for `C9_short_history_no_significant_changes`: a 7d analysis at
    its three-point minimum flags nothing. -/
theorem C9_short_history_witness :
    identifyImprovements
      [⟨0, 10, none, none, none, none⟩, ⟨1, 90, none, none, none, none⟩,
       ⟨2, 90, none, none, none, none⟩] 5 = [] ∧
    identifyRegressions
      [⟨0, 10, none, none, none, none⟩, ⟨1, 90, none, none, none, none⟩,
       ⟨2, 90, none, none, none, none⟩] 5 = [] :=
  C9_short_history_no_significant_changes _ 5 (by decide) (by decide)

/-- **C4**: on a time-ordered ten-record history whose first five overall
    scores average 50 and whose last five average 80, the trend is
    `improving` (half-vs-half delta 30 ≥ 5) and `identifyImprovements`
    flags the Overall metric as a `major` improvement against the 30d
    significance threshold of 8 (30 ≥ 8 × 2.5). -/
theorem C4_ten_point_improving_major (history : List PerformanceHistory)
    (hlen : history.length = 10)
    (hsorted : history.Pairwise (fun a b => a.recordedAt ≤ b.recordedAt))
    (hfirst : ((history.take 5).map PerformanceHistory.overallScore).sum = 250)
    (hlast : ((history.drop 5).map PerformanceHistory.overallScore).sum = 400) :
    detectOverallTrend history = .improving ∧
    ∃ c ∈ identifyImprovements history (TREND_PARAMS .p30d).significanceThreshold,
      c.category = .overall ∧ c.type = .improvement ∧ c.magnitude = .major ∧
      c.scoreChange = 30 := by
  have hsort_eq : sortByRecordedAt history = history :=
    List.Sorted.insertionSort_eq hsorted
  have hdroplen : (history.drop 5).length = 5 := by
    rw [List.length_drop, hlen]
  have htakelen : (history.take 5).length = 5 := by
    simp [List.length_take, hlen]
  have hdropne : history.drop 5 ≠ [] := by
    intro h0; rw [h0] at hdroplen; simp at hdroplen
  have htakene : history.take 5 ≠ [] := by
    intro h0; rw [h0] at htakelen; simp at htakelen
  have hrec : (calculateAverageScores (history.drop 5)).overall = 80 := by
    rw [calculateAverageScores, if_neg hdropne]
    show ((history.drop 5).map PerformanceHistory.overallScore).sum /
        ((history.drop 5).length : ℚ) = 80
    rw [hlast, hdroplen]
    norm_num
  have hbase : (calculateAverageScores (history.take 5)).overall = 50 := by
    rw [calculateAverageScores, if_neg htakene]
    show ((history.take 5).map PerformanceHistory.overallScore).sum /
        ((history.take 5).length : ℚ) = 50
    rw [hfirst, htakelen]
    norm_num
  constructor
  · have hge : ¬ history.length < 2 := by omega
    simp only [detectOverallTrend, hge, if_false, hsort_eq, hlen]
    norm_num
    rw [hrec, hbase]
    norm_num
  · have hge : ¬ history.length < 2 := by omega
    simp only [identifyImprovements, hge, if_false, hsort_eq, hlen]
    norm_num
    refine ⟨⟨.overall, .improvement, .major, 30, 60⟩, ?_, rfl, rfl, rfl, rfl⟩
    refine ⟨.overall, some (calculateAverageScores (history.drop 5)).overall,
            some (calculateAverageScores (history.take 5)).overall,
            by simp [metricsOf], ?_⟩
    rw [hrec, hbase]
    have h30 : (80 : ℚ) - 50 = 30 := by norm_num
    have habs : |(30 : ℚ)| = 30 := abs_of_nonneg (by norm_num)
    simp only [TREND_PARAMS, h30, habs]
    norm_num [classifyMagnitude, round2, jsRound]

/-- Witness for `C4_ten_point_improving_major` at the concrete history. -/
theorem C4_ten_point_improving_major_witness :
    detectOverallTrend c4History = .improving ∧
    ∃ c ∈ identifyImprovements c4History (TREND_PARAMS .p30d).significanceThreshold,
      c.category = .overall ∧ c.type = .improvement ∧ c.magnitude = .major ∧
      c.scoreChange = 30 :=
  C4_ten_point_improving_major c4History (by decide)
    (by norm_num [c4History, List.pairwise_cons])
    (by norm_num [c4History]) (by norm_num [c4History])

/-! ## Theorems for claims C6 and C7 (link checker) -/

/-- Stepping the `checkLinks` loop preserves: distinct checked URLs, the
    probe trace being a sub-list of the checked set, the count agreeing with
    the checked set, and the 50 cap (given headroom before the step). -/
theorem checkLinksStep_probe_inv (env : LinkEnv) (baseUrl : String)
    (st : LinkCheckState) (a : Anchor)
    (hnodup : st.checkedUrls.Nodup) (hsub : st.probed.Sublist st.checkedUrls)
    (hcount : st.checkedCount = st.checkedUrls.length)
    (hlt : st.checkedCount < 50) :
    (checkLinksStep env baseUrl st a).checkedUrls.Nodup ∧
    (checkLinksStep env baseUrl st a).probed.Sublist
      (checkLinksStep env baseUrl st a).checkedUrls ∧
    (checkLinksStep env baseUrl st a).checkedCount =
      (checkLinksStep env baseUrl st a).checkedUrls.length ∧
    (checkLinksStep env baseUrl st a).checkedCount ≤ 50 := by
  unfold checkLinksStep
  by_cases hskip : a.href = "" ∨ jsStartsWith a.href "#" = true ∨
      jsStartsWith a.href "mailto:" = true ∨ jsStartsWith a.href "tel:" = true
  · rw [if_pos hskip]
    exact ⟨hnodup, hsub, hcount, hlt.le⟩
  · rw [if_neg hskip]
    cases hres : resolveAnchor env baseUrl a.href with
    | none => exact ⟨hnodup, hsub, hcount, hlt.le⟩
    | some p =>
      obtain ⟨url, isInternal⟩ := p
      dsimp only
      by_cases hmem : url ∈ st.checkedUrls
      · rw [if_pos hmem]
        exact ⟨hnodup, hsub, hcount, hlt.le⟩
      · rw [if_neg hmem]
        by_cases hgate : ¬ isInternal = true ∧ ¬ env.gateAccepts url = true
        · rw [if_pos hgate]
          refine ⟨List.nodup_cons.mpr ⟨hmem, hnodup⟩, hsub.cons url, ?_, ?_⟩
          · show st.checkedCount + 1 = (url :: st.checkedUrls).length
            simp [hcount]
          · show st.checkedCount + 1 ≤ 50
            omega
        · rw [if_neg hgate]
          cases hpr : probeRecords env url with
          | some s =>
            refine ⟨List.nodup_cons.mpr ⟨hmem, hnodup⟩, hsub.cons₂ url, ?_, ?_⟩
            · show st.checkedCount + 1 = (url :: st.checkedUrls).length
              simp [hcount]
            · show st.checkedCount + 1 ≤ 50
              omega
          | none =>
            refine ⟨List.nodup_cons.mpr ⟨hmem, hnodup⟩, hsub.cons₂ url, ?_, ?_⟩
            · show st.checkedCount + 1 = (url :: st.checkedUrls).length
              simp [hcount]
            · show st.checkedCount + 1 ≤ 50
              omega

/-- The loop-level probe invariant. -/
theorem checkLinksLoop_probe_inv (env : LinkEnv) (baseUrl : String)
    (anchors : List Anchor) :
    ∀ st : LinkCheckState, st.checkedUrls.Nodup →
      st.probed.Sublist st.checkedUrls →
      st.checkedCount = st.checkedUrls.length → st.checkedCount ≤ 50 →
      (checkLinksLoop env baseUrl anchors st).checkedUrls.Nodup ∧
      (checkLinksLoop env baseUrl anchors st).probed.Sublist
        (checkLinksLoop env baseUrl anchors st).checkedUrls ∧
      (checkLinksLoop env baseUrl anchors st).checkedCount =
        (checkLinksLoop env baseUrl anchors st).checkedUrls.length ∧
      (checkLinksLoop env baseUrl anchors st).checkedCount ≤ 50 := by
  induction anchors with
  | nil =>
    intro st h1 h2 h3 h4
    exact ⟨h1, h2, h3, h4⟩
  | cons a rest ih =>
    intro st h1 h2 h3 h4
    simp only [checkLinksLoop]
    by_cases hc : 50 ≤ st.checkedCount
    · rw [if_pos hc]
      exact ⟨h1, h2, h3, h4⟩
    · rw [if_neg hc]
      obtain ⟨g1, g2, g3, g4⟩ :=
        checkLinksStep_probe_inv env baseUrl st a h1 h2 h3 (by omega)
      exact ih _ g1 g2 g3 g4

/-- **C6**: for every document, `checkLinks` probes at most 50 links (so 60
    distinct anchors yield at most 50 probes), and any two anchors resolving
    to the same absolute URL are probed at most once within a run. -/
theorem C6_probe_cap_and_dedup (env : LinkEnv) (baseUrl : String)
    (anchors : List Anchor) :
    (checkLinks env baseUrl anchors).probed.Nodup ∧
    (checkLinks env baseUrl anchors).probed.length ≤ 50 := by
  obtain ⟨h1, h2, h3, h4⟩ :=
    checkLinksLoop_probe_inv env baseUrl anchors ⟨[], [], 0, []⟩
      (by simp) (by simp) rfl (by norm_num)
  exact ⟨List.Nodup.sublist h2 h1, le_trans h2.length_le (by omega)⟩

/-- Stepping the `checkLinks` loop preserves the broken-link recording
    invariant: every recorded entry's status is exactly what its probe
    yielded (`probeRecords`), and every probed URL whose probe yields a
    recordable status has an entry. -/
theorem checkLinksStep_broken_inv (env : LinkEnv) (baseUrl : String)
    (st : LinkCheckState) (a : Anchor)
    (h1 : ∀ b ∈ st.brokenLinks, b.url ∈ st.probed ∧
      probeRecords env b.url = some b.status)
    (h2 : ∀ url ∈ st.probed, ∀ s, probeRecords env url = some s →
      ∃ b ∈ st.brokenLinks, b.url = url ∧ b.status = s) :
    (∀ b ∈ (checkLinksStep env baseUrl st a).brokenLinks,
      b.url ∈ (checkLinksStep env baseUrl st a).probed ∧
      probeRecords env b.url = some b.status) ∧
    (∀ url ∈ (checkLinksStep env baseUrl st a).probed, ∀ s,
      probeRecords env url = some s →
      ∃ b ∈ (checkLinksStep env baseUrl st a).brokenLinks,
        b.url = url ∧ b.status = s) := by
  unfold checkLinksStep
  by_cases hskip : a.href = "" ∨ jsStartsWith a.href "#" = true ∨
      jsStartsWith a.href "mailto:" = true ∨ jsStartsWith a.href "tel:" = true
  · rw [if_pos hskip]
    exact ⟨h1, h2⟩
  · rw [if_neg hskip]
    cases hres : resolveAnchor env baseUrl a.href with
    | none => exact ⟨h1, h2⟩
    | some p =>
      obtain ⟨url, isInternal⟩ := p
      dsimp only
      by_cases hmem : url ∈ st.checkedUrls
      · rw [if_pos hmem]
        exact ⟨h1, h2⟩
      · rw [if_neg hmem]
        by_cases hgate : ¬ isInternal = true ∧ ¬ env.gateAccepts url = true
        · rw [if_pos hgate]
          exact ⟨h1, h2⟩
        · rw [if_neg hgate]
          cases hpr : probeRecords env url with
          | some s =>
            constructor
            · intro b hb
              rcases List.mem_append.mp hb with hold | hnew
              · obtain ⟨hm, hp⟩ := h1 b hold
                exact ⟨List.mem_cons_of_mem url hm, hp⟩
              · rw [List.mem_singleton] at hnew
                subst hnew
                exact ⟨List.mem_cons_self _ _, hpr⟩
            · intro u hu s' hps
              rcases List.mem_cons.mp hu with rfl | hold
              · refine ⟨⟨u, s, a.context, isInternal⟩,
                  List.mem_append_right _ (List.mem_singleton.mpr rfl), rfl, ?_⟩
                rw [hpr] at hps
                exact Option.some.inj hps
              · obtain ⟨b, hb, hbu, hbs⟩ := h2 u hold s' hps
                exact ⟨b, List.mem_append_left _ hb, hbu, hbs⟩
          | none =>
            constructor
            · intro b hb
              obtain ⟨hm, hp⟩ := h1 b hb
              exact ⟨List.mem_cons_of_mem url hm, hp⟩
            · intro u hu s' hps
              rcases List.mem_cons.mp hu with rfl | hold
              · rw [hpr] at hps
                exact absurd hps (by simp)
              · exact h2 u hold s' hps

/-- The loop-level broken-link recording invariant. -/
theorem checkLinksLoop_broken_inv (env : LinkEnv) (baseUrl : String)
    (anchors : List Anchor) :
    ∀ st : LinkCheckState,
      (∀ b ∈ st.brokenLinks, b.url ∈ st.probed ∧
        probeRecords env b.url = some b.status) →
      (∀ url ∈ st.probed, ∀ s, probeRecords env url = some s →
        ∃ b ∈ st.brokenLinks, b.url = url ∧ b.status = s) →
      (∀ b ∈ (checkLinksLoop env baseUrl anchors st).brokenLinks,
        b.url ∈ (checkLinksLoop env baseUrl anchors st).probed ∧
        probeRecords env b.url = some b.status) ∧
      (∀ url ∈ (checkLinksLoop env baseUrl anchors st).probed, ∀ s,
        probeRecords env url = some s →
        ∃ b ∈ (checkLinksLoop env baseUrl anchors st).brokenLinks,
          b.url = url ∧ b.status = s) := by
  induction anchors with
  | nil => intro st h1 h2; exact ⟨h1, h2⟩
  | cons a rest ih =>
    intro st h1 h2
    simp only [checkLinksLoop]
    by_cases hc : 50 ≤ st.checkedCount
    · rw [if_pos hc]
      exact ⟨h1, h2⟩
    · rw [if_neg hc]
      obtain ⟨g1, g2⟩ := checkLinksStep_broken_inv env baseUrl st a h1 h2
      exact ih _ g1 g2

/-- **C7 (amended)**: a probed link gets a BrokenLink entry exactly when its
    probe yields a recordable status (`probeRecords`): a fulfilled response
    with status ≥ 400, or a rejection that carries *any* response status
    (the `catch` records `error.response.status` without a ≥ 400 check);
    a rejection without a status (DNS failure, connection refused) records
    nothing, and the loop always returns its accumulated list. -/
theorem C7_broken_links_characterization (env : LinkEnv) (baseUrl : String)
    (anchors : List Anchor) :
    (∀ b ∈ (checkLinks env baseUrl anchors).brokenLinks,
      b.url ∈ (checkLinks env baseUrl anchors).probed ∧
      probeRecords env b.url = some b.status) ∧
    (∀ url ∈ (checkLinks env baseUrl anchors).probed, ∀ s,
      probeRecords env url = some s →
      ∃ b ∈ (checkLinks env baseUrl anchors).brokenLinks,
        b.url = url ∧ b.status = s) ∧
    (∀ url, env.headRequest url = .failure none → probeRecords env url = none) := by
  obtain ⟨g1, g2⟩ := checkLinksLoop_broken_inv env baseUrl anchors ⟨[], [], 0, []⟩
    (by intro b hb; exact absurd hb (by simp))
    (by intro u hu; exact absurd hu (by simp))
  refine ⟨g1, g2, ?_⟩
  intro url hhead
  unfold probeRecords
  rw [hhead]

/-- **C7 (counterexample)**: the claim "an entry is recorded only if a status
    ≥ 400 was obtained" fails: a HEAD probe rejected with a `304 Not
    Modified` response (axios rejects any non-2xx by default) is recorded as
    a BrokenLink with status 304 < 400, because the `catch` block records
    `error.response.status` unconditionally. -/
theorem C7_claim_counterexample :
    (checkLinks c7Env "http://site.example/"
      [⟨"http://ext.example/page", "page content"⟩]).brokenLinks =
      [⟨"http://ext.example/page", 304, "page content", false⟩] ∧
    304 < 400 :=
  ⟨by decide, by norm_num⟩

/-! ## Theorems for claim C8 (trend store uniqueness) -/

theorem mapGet_eq_none_iff (s : TrendStore) (k : String) :
    mapGet s k = none ↔ k ∉ s.map Prod.fst := by
  induction s with
  | nil => simp [mapGet]
  | cons kv rest ih =>
    obtain ⟨k', v'⟩ := kv
    by_cases h : k' = k
    · subst h
      simp [mapGet]
    · simp only [mapGet, h, if_false, List.map_cons, List.mem_cons]
      rw [ih]
      constructor
      · intro hn
        rintro (rfl | hm)
        · exact h rfl
        · exact hn hm
      · intro hn hm
        exact hn (Or.inr hm)

theorem mapSet_keys_of_mem (s : TrendStore) (k : String) (v : TrendAnalysisRecord)
    (h : mapGet s k ≠ none) :
    (mapSet s k v).map Prod.fst = s.map Prod.fst := by
  induction s with
  | nil => simp [mapGet] at h
  | cons kv rest ih =>
    obtain ⟨k', v'⟩ := kv
    by_cases hk : k' = k
    · subst hk
      simp [mapSet]
    · simp only [mapGet, hk, if_false] at h
      simp only [mapSet, hk, if_false, List.map_cons]
      rw [ih h]

theorem mapSet_keys_of_not_mem (s : TrendStore) (k : String) (v : TrendAnalysisRecord)
    (h : mapGet s k = none) :
    (mapSet s k v).map Prod.fst = s.map Prod.fst ++ [k] := by
  induction s with
  | nil => simp [mapSet]
  | cons kv rest ih =>
    obtain ⟨k', v'⟩ := kv
    by_cases hk : k' = k
    · subst hk
      simp [mapGet] at h
    · simp only [mapGet, hk, if_false] at h
      simp only [mapSet, hk, if_false, List.map_cons, List.cons_append]
      rw [ih h]

theorem mapSet_mem (s : TrendStore) (k : String) (v : TrendAnalysisRecord) :
    ∀ kv ∈ mapSet s k v, kv = (k, v) ∨ kv ∈ s := by
  induction s with
  | nil =>
    intro kv hkv
    simp [mapSet] at hkv
    exact Or.inl hkv
  | cons kv0 rest ih =>
    obtain ⟨k', v'⟩ := kv0
    intro kv hkv
    by_cases hk : k' = k
    · subst hk
      simp only [mapSet, if_true, eq_self_iff_true, List.mem_cons] at hkv
      rcases hkv with rfl | hm
      · exact Or.inl rfl
      · exact Or.inr (List.mem_cons_of_mem _ hm)
    · simp only [mapSet, hk, if_false, List.mem_cons] at hkv
      rcases hkv with rfl | hm
      · exact Or.inr (List.mem_cons_self _ _)
      · rcases ih kv hm with h | h
        · exact Or.inl h
        · exact Or.inr (List.mem_cons_of_mem _ h)

/-- Well-formedness of every reachable trend store: the keys are pairwise
    distinct, and every binding's key is derived from its record's
    (trackingId, timePeriod) fields. -/
theorem reachable_store_wf (s : TrendStore) (h : ReachableStore s) :
    (s.map Prod.fst).Nodup ∧
    ∀ kv ∈ s, kv.1 = trendKey kv.2.historicalTrackingId kv.2.timePeriod := by
  induction h with
  | empty => exact ⟨List.nodup_nil, by intro kv hkv; exact absurd hkv (by simp)⟩
  | step s ins newId now _ ih =>
    obtain ⟨hn, hk⟩ := ih
    simp only [createOrUpdateTrendAnalysis]
    cases hget : mapGet s (trendKey ins.historicalTrackingId ins.timePeriod) with
    | some e =>
      dsimp only
      constructor
      · rw [mapSet_keys_of_mem s _ _ (by rw [hget]; simp)]
        exact hn
      · intro kv hkv
        rcases mapSet_mem s _ _ kv hkv with rfl | hold
        · rfl
        · exact hk kv hold
    | none =>
      dsimp only
      constructor
      · rw [mapSet_keys_of_not_mem s _ _ hget]
        have hnotin := (mapGet_eq_none_iff s _).mp hget
        simp [List.nodup_append, hn, hnotin]
      · intro kv hkv
        rcases mapSet_mem s _ _ kv hkv with rfl | hold
        · rfl
        · exact hk kv hold

/-- In a store with pairwise-distinct keys, two bindings with the same key
    are the same binding. -/
theorem assoc_key_unique : ∀ (s : TrendStore), (s.map Prod.fst).Nodup →
    ∀ kv1 ∈ s, ∀ kv2 ∈ s, kv1.1 = kv2.1 → kv1 = kv2 := by
  intro s
  induction s with
  | nil => intro _ kv1 h1; exact absurd h1 (by simp)
  | cons kv0 rest ih =>
    intro hn kv1 h1 kv2 h2 hkeys
    rw [List.map_cons, List.nodup_cons] at hn
    rcases List.mem_cons.mp h1 with rfl | h1'
    · rcases List.mem_cons.mp h2 with rfl | h2'
      · rfl
      · exact absurd (by rw [hkeys]; exact List.mem_map_of_mem Prod.fst h2') hn.1
    · rcases List.mem_cons.mp h2 with rfl | h2'
      · exact absurd (by rw [← hkeys]; exact List.mem_map_of_mem Prod.fst h1') hn.1
      · exact ih hn.2 kv1 h1' kv2 h2' hkeys

/-- If the key already has a binding, `mapSet` leaves the store size
    unchanged. -/
theorem mapSet_length_of_mem (s : TrendStore) (k : String) (v : TrendAnalysisRecord)
    (h : mapGet s k ≠ none) :
    (mapSet s k v).length = s.length := by
  have := mapSet_keys_of_mem s k v h
  have h1 : ((mapSet s k v).map Prod.fst).length = (s.map Prod.fst).length := by
    rw [this]
  simpa using h1

/-- **C8**: the trend store keeps at most one current analysis per
    (trackingId, timePeriod) pair — in every reachable store state two
    bindings carrying the same pair are one and the same — and storing a
    fresh analysis for an existing pair replaces the prior record rather
    than adding a second one (the store does not grow). -/
theorem C8_one_analysis_per_pair (s : TrendStore) (h : ReachableStore s)
    (ins : InsertTrend) (newId now : Nat) :
    (∀ kv1 ∈ s, ∀ kv2 ∈ s,
      kv1.2.historicalTrackingId = kv2.2.historicalTrackingId →
      kv1.2.timePeriod = kv2.2.timePeriod → kv1 = kv2) ∧
    (mapGet s (trendKey ins.historicalTrackingId ins.timePeriod) ≠ none →
      (createOrUpdateTrendAnalysis s ins newId now).length = s.length) := by
  obtain ⟨hn, hk⟩ := reachable_store_wf s h
  constructor
  · intro kv1 h1 kv2 h2 hid hp
    refine assoc_key_unique s hn kv1 h1 kv2 h2 ?_
    rw [hk kv1 h1, hk kv2 h2, hid, hp]
  · intro hne
    simp only [createOrUpdateTrendAnalysis]
    cases hget : mapGet s (trendKey ins.historicalTrackingId ins.timePeriod) with
    | some e =>
      dsimp only
      exact mapSet_length_of_mem s _ _ (by rw [hget]; simp)
    | none => exact absurd hget hne

/-- Witness for `C8_one_analysis_per_pair`: a store built by two updates of
    the same (trackingId, 30d) pair. -/
theorem C8_one_analysis_per_pair_witness :
    (∀ kv1 ∈ createOrUpdateTrendAnalysis
        (createOrUpdateTrendAnalysis [] (c8Insert 10) 1 0) (c8Insert 20) 2 5,
      ∀ kv2 ∈ createOrUpdateTrendAnalysis
        (createOrUpdateTrendAnalysis [] (c8Insert 10) 1 0) (c8Insert 20) 2 5,
      kv1.2.historicalTrackingId = kv2.2.historicalTrackingId →
      kv1.2.timePeriod = kv2.2.timePeriod → kv1 = kv2) ∧
    (mapGet (createOrUpdateTrendAnalysis
        (createOrUpdateTrendAnalysis [] (c8Insert 10) 1 0) (c8Insert 20) 2 5)
        (trendKey (c8Insert 30).historicalTrackingId (c8Insert 30).timePeriod) ≠ none →
      (createOrUpdateTrendAnalysis (createOrUpdateTrendAnalysis
        (createOrUpdateTrendAnalysis [] (c8Insert 10) 1 0) (c8Insert 20) 2 5)
        (c8Insert 30) 3 9).length =
      (createOrUpdateTrendAnalysis
        (createOrUpdateTrendAnalysis [] (c8Insert 10) 1 0) (c8Insert 20) 2 5).length) :=
  C8_one_analysis_per_pair _
    (ReachableStore.step _ (c8Insert 20) 2 5
      (ReachableStore.step _ (c8Insert 10) 1 0 ReachableStore.empty))
    (c8Insert 30) 3 9

theorem jsRound_nonneg {q : ℚ} (h : 0 ≤ q) : 0 ≤ jsRound q :=
  Int.le_floor.mpr (by push_cast; linarith)

theorem jsRound_le_hundred {q : ℚ} (h : q ≤ 100) : jsRound q ≤ 100 := by
  calc jsRound q = ⌊q + 1/2⌋ := rfl
    _ ≤ ⌊(100 + 1/2 : ℚ)⌋ := Int.floor_le_floor (by linarith)
    _ = 100 := by norm_num

theorem jsRound_bounds {q : ℚ} (h0 : 0 ≤ q) (h1 : q ≤ 100) :
    0 ≤ jsRound q ∧ jsRound q ≤ 100 :=
  ⟨jsRound_nonneg h0, jsRound_le_hundred h1⟩

theorem max_zero_bounds {x : ℤ} (h : x ≤ 100) : inBounds (max 0 x) :=
  ⟨le_max_left 0 x, max_le (by norm_num) h⟩

theorem foldl_hierarchyStep_le (levels : List Nat) :
    ∀ (s : ℤ) (p : Nat), (levels.foldl hierarchyStep (s, p)).1 ≤ s := by
  induction levels with
  | nil => intro s p; simp
  | cons l ls ih =>
    intro s p
    simp only [List.foldl_cons, hierarchyStep]
    by_cases h : p + 1 < l
    · simp only [h, if_true]
      exact le_trans (ih (s - 5) p) (by omega)
    · simp only [h, if_false]
      exact ih s l

theorem hierarchyWalk_le (levels : List Nat) (score0 : ℤ) :
    hierarchyWalk levels score0 ≤ score0 :=
  foldl_hierarchyStep_le levels score0 0

theorem analyzeMetaTagsScore_bounds (m : MetaTagAnalysis) :
    inBounds (analyzeMetaTagsScore m) := by
  simp only [analyzeMetaTagsScore]
  exact max_zero_bounds (by split_ifs <;> omega)

theorem analyzeContentStructure_bounds (doc : Doc) :
    inBounds (analyzeContentStructure doc) := by
  simp only [analyzeContentStructure]
  refine max_zero_bounds ?_
  have hw := hierarchyWalk_le doc.headingLevels
    (100 - (if doc.h1Count = 0 then (20 : ℤ) else if 1 < doc.h1Count then 15 else 0))
  split_ifs at hw ⊢ <;> omega

theorem analyzeTechnicalSEO_bounds (doc : Doc) (brokenLinksCount : Nat)
    (statistics : AuditStatistics) :
    inBounds (analyzeTechnicalSEO doc brokenLinksCount statistics) := by
  simp only [analyzeTechnicalSEO]
  exact max_zero_bounds (by split_ifs <;> omega)

theorem analyzePerformanceScore_bounds (p : PerformanceMetrics) :
    inBounds (analyzePerformanceScore p) := by
  simp only [analyzePerformanceScore]
  exact max_zero_bounds (by split_ifs <;> omega)

theorem analyzeUserExperience_bounds (doc : Doc) (issues : List AccessibilityIssue) :
    inBounds (analyzeUserExperience doc issues) := by
  simp only [analyzeUserExperience]
  exact max_zero_bounds (by split_ifs <;> omega)

theorem seoOverall_bounds (doc : Doc) (metaTags : MetaTagAnalysis)
    (issues : List AccessibilityIssue) (brokenLinksCount : Nat)
    (p : PerformanceMetrics) (stats : AuditStatistics) :
    inBounds (calculateAdvancedSEOScoring doc metaTags issues brokenLinksCount p stats).overallScore := by
  obtain ⟨m0, m1⟩ := analyzeMetaTagsScore_bounds metaTags
  obtain ⟨c0, c1⟩ := analyzeContentStructure_bounds doc
  obtain ⟨t0, t1⟩ := analyzeTechnicalSEO_bounds doc brokenLinksCount stats
  obtain ⟨p0, p1⟩ := analyzePerformanceScore_bounds p
  obtain ⟨u0, u1⟩ := analyzeUserExperience_bounds doc issues
  have cast_bounds : ∀ {x : ℤ}, 0 ≤ x → x ≤ 100 →
      (0 : ℚ) ≤ (x : ℚ) ∧ (x : ℚ) ≤ 100 := by
    intro x h0 h1
    constructor <;> exact_mod_cast by assumption
  obtain ⟨m0', m1'⟩ := cast_bounds m0 m1
  obtain ⟨c0', c1'⟩ := cast_bounds c0 c1
  obtain ⟨t0', t1'⟩ := cast_bounds t0 t1
  obtain ⟨p0', p1'⟩ := cast_bounds p0 p1
  obtain ⟨u0', u1'⟩ := cast_bounds u0 u1
  simp only [calculateAdvancedSEOScoring]
  exact jsRound_bounds (by linarith) (by linarith)

theorem calculateCategoryScore_bounds (issues : List AccessibilityIssue)
    (categoryTypes : List String) :
    inBounds (calculateCategoryScore issues categoryTypes) := by
  simp only [calculateCategoryScore]
  exact max_zero_bounds (by omega)

theorem accessibilityOverall_bounds (issues : List AccessibilityIssue) :
    inBounds (calculateAccessibilityScoring issues).overallScore := by
  simp only [calculateAccessibilityScoring]
  exact max_zero_bounds (by omega)

theorem analyzeTouchTargets_bounds (doc : Doc) :
    inBounds (analyzeTouchTargets doc) := by
  have hx : (0 : ℚ) ≤
      (doc.touchTooSmall : ℚ) / ((doc.touchAdequate + doc.touchTooSmall : Nat) : ℚ) * 100 := by
    positivity
  simp only [analyzeTouchTargets]
  refine jsRound_bounds ?_ ?_
  · split_ifs
    · norm_num
    · exact le_max_left _ _
    · norm_num
  · split_ifs
    · norm_num
    · exact max_le (by norm_num) (by linarith)
    · norm_num

theorem analyzeTextReadability_bounds (doc : Doc) :
    inBounds (analyzeTextReadability doc) := by
  have hx : (0 : ℚ) ≤
      (doc.smallTextElements : ℚ) / (doc.textElementCount : ℚ) * 100 := by
    positivity
  have hmax : max 0 (100 - (doc.smallTextElements : ℚ) /
      (doc.textElementCount : ℚ) * 100) ≤ 100 :=
    max_le (by norm_num) (by linarith)
  have hmax0 : (0 : ℚ) ≤ max 0 (100 - (doc.smallTextElements : ℚ) /
      (doc.textElementCount : ℚ) * 100) := le_max_left _ _
  simp only [analyzeTextReadability]
  refine jsRound_bounds ?_ ?_ <;> split_ifs <;>
    first
      | exact le_max_right _ _
      | exact hmax0
      | exact hmax
      | exact max_le (by linarith) (by norm_num)
      | norm_num

theorem analyzeMobilePerformance_bounds (doc : Doc) (p : PerformanceMetrics) :
    inBounds (analyzeMobilePerformance doc p) := by
  simp only [analyzeMobilePerformance]
  exact max_zero_bounds (by split_ifs <;> omega)

theorem analyzeMobileSEO_bounds (doc : Doc) :
    inBounds (analyzeMobileSEO doc) := by
  simp only [analyzeMobileSEO]
  exact max_zero_bounds (by split_ifs <;> omega)

theorem mobileOverall_bounds (doc : Doc) (p : PerformanceMetrics) :
    inBounds (analyzeMobileFriendliness doc p).overallScore := by
  obtain ⟨t0, t1⟩ := analyzeTouchTargets_bounds doc
  obtain ⟨r0, r1⟩ := analyzeTextReadability_bounds doc
  obtain ⟨q0, q1⟩ := analyzeMobilePerformance_bounds doc p
  obtain ⟨s0, s1⟩ := analyzeMobileSEO_bounds doc
  have cast_bounds : ∀ {x : ℤ}, 0 ≤ x → x ≤ 100 →
      (0 : ℚ) ≤ (x : ℚ) ∧ (x : ℚ) ≤ 100 := by
    intro x h0 h1
    constructor <;> exact_mod_cast by assumption
  obtain ⟨t0', t1'⟩ := cast_bounds t0 t1
  obtain ⟨r0', r1'⟩ := cast_bounds r0 r1
  obtain ⟨q0', q1'⟩ := cast_bounds q0 q1
  obtain ⟨s0', s1'⟩ := cast_bounds s0 s1
  have hvp : (0 : ℚ) ≤ (if analyzeViewport doc = .good then (20 : ℚ)
      else if analyzeViewport doc = .warning then 10 else 0) ∧
      (if analyzeViewport doc = .good then (20 : ℚ)
      else if analyzeViewport doc = .warning then 10 else 0) ≤ 20 := by
    split_ifs <;> norm_num
  obtain ⟨v0, v1⟩ := hvp
  simp only [analyzeMobileFriendliness]
  exact jsRound_bounds (by linarith) (by linarith)

/-- **C3**: every score the audit produces — the audit's `overallScore`
    (which is the SEO overall score), each SEO sub-score, the accessibility
    overall score, each WCAG-principle sub-score, the mobile overall score
    and each mobile sub-score — lies within `[0, 100]` for every input
    document, metric set and link-result count, no matter how many penalties
    accumulate. -/
theorem C3_all_scores_within_bounds (doc : Doc) (metaTags : MetaTagAnalysis)
    (issues : List AccessibilityIssue) (brokenLinksCount : Nat)
    (perf : PerformanceMetrics) (stats : AuditStatistics) :
    let seo := calculateAdvancedSEOScoring doc metaTags issues brokenLinksCount perf stats
    let acc := calculateAccessibilityScoring issues
    let mob := analyzeMobileFriendliness doc perf
    inBounds seo.overallScore ∧ inBounds seo.metaTags ∧
    inBounds seo.contentStructure ∧ inBounds seo.technicalSEO ∧
    inBounds seo.performance ∧ inBounds seo.userExperience ∧
    inBounds acc.overallScore ∧ inBounds acc.perceivable ∧
    inBounds acc.operable ∧ inBounds acc.understandable ∧ inBounds acc.robust ∧
    inBounds mob.overallScore ∧ inBounds mob.touchTargets ∧
    inBounds mob.textReadability ∧ inBounds mob.mobilePerformance ∧
    inBounds mob.mobileSEO := by
  refine ⟨seoOverall_bounds doc metaTags issues brokenLinksCount perf stats,
    analyzeMetaTagsScore_bounds metaTags, analyzeContentStructure_bounds doc,
    analyzeTechnicalSEO_bounds doc brokenLinksCount stats,
    analyzePerformanceScore_bounds perf, analyzeUserExperience_bounds doc issues,
    accessibilityOverall_bounds issues, calculateCategoryScore_bounds issues _,
    calculateCategoryScore_bounds issues _, calculateCategoryScore_bounds issues _,
    calculateCategoryScore_bounds issues _, mobileOverall_bounds doc perf,
    analyzeTouchTargets_bounds doc, analyzeTextReadability_bounds doc,
    analyzeMobilePerformance_bounds doc perf, analyzeMobileSEO_bounds doc⟩

end SitePulse
